import Mathlib

/-!
Verification of the `lesson1/hw.py` tool-calling demo.

The Python source is embedded shallowly:

* Numbers flowing through the calculator tool are modelled as exact
  rationals (`ℚ`); the arithmetic the source performs (`+`, `-`, `*`, `/`)
  is the corresponding rational arithmetic.
* A Python value that is either a number or an error string becomes the
  sum type `CalcResult`.
* The fact-service interaction of `get_random_fact` is external input, so
  the function takes the outcome of the HTTP GET (`HttpOutcome`) as an
  argument; a Python `dict` result becomes an association list from keys
  to string values.
* The agent loop `run_agent` is a pure function of the user message and an
  environment (`AgentEnv`) holding the chat endpoint's responses and the
  fact-service outcomes; the Python exceptions it can raise (the `KeyError`
  from the `available_functions` lookup, the `TypeError` from a keyword
  argument mismatch) become the error side of an `Except`, instrumented
  with which tools had already executed when the exception propagated.
-/

namespace Hw

/-- Value returned by `calculate`: either a number or an error string
(the Python function returns a `float` or a `str`). -/
inductive CalcResult where
  | num (q : ℚ)
  | str (s : String)
  deriving DecidableEq, Repr

/-- The `operations` dict of `calculate`, as an association list from the
operation name to the lambda implementing it.  The `divide` entry returns
`a / b` when `b != 0` and the division-by-zero error string otherwise,
exactly as the Python conditional expression does. -/
def operations : List (String × (ℚ → ℚ → CalcResult)) :=
  [("add", fun a b => .num (a + b)),
   ("subtract", fun a b => .num (a - b)),
   ("multiply", fun a b => .num (a * b)),
   ("divide", fun a b => if b ≠ 0 then .num (a / b) else .str "Error: Division by zero")]

/-- `calculate(operation, x, y)`: if the operation is not a key of the
`operations` dict, return the unknown-operation error string; otherwise
apply the looked-up lambda. -/
def calculate (operation : String) (x y : ℚ) : CalcResult :=
  match operations.lookup operation with
  | none => .str ("Error: Unknown operation \x27" ++ (operation ++ "\x27"))
  | some f => f x y

/-- Parsed JSON body of a fact-service response.  `none` in a field means
the key is absent from the object (reading it raises `KeyError` in
Python). -/
structure FactData where
  text : Option String
  source : Option String
  deriving DecidableEq, Repr

deriving instance DecidableEq for Except

/-- Outcome of the HTTP GET performed by `get_random_fact`:
either a response with a status code and a body (`Except.error m` is a
body that `response.json()` fails to parse, raising an exception with
message `m`), or a transport failure raising an exception with the given
message. -/
inductive HttpOutcome where
  | response (status_code : Nat) (body : Except String FactData)
  | transportError (msg : String)
  deriving DecidableEq, Repr

/-- `get_random_fact()`, as a function of the outcome of its HTTP GET.
Mirrors the Python control flow: the `try` block checks
`status_code == 200`, parses the body, reads `data["text"]` (a `KeyError`
when absent) and `data.get("source", "Unknown")`; every exception is
caught and turned into an `error` dict, and a non-200 status yields its
own `error` dict. -/
def get_random_fact (h : HttpOutcome) : List (String × String) :=
  match h with
  | .transportError e => [("error", "Error fetching fact: " ++ e)]
  | .response status_code body =>
    if status_code = 200 then
      match body with
      | .error e => [("error", "Error fetching fact: " ++ e)]
      | .ok data =>
        match data.text with
        | none => [("error", "Error fetching fact: " ++ "\x27text\x27")]
        | some t => [("fact", t), ("source", data.source.getD "Unknown")]
    else
      [("error", "Could not fetch random fact. Status: " ++ toString status_code)]

/-- A failing fact-service interaction in the sense of the spec: a
transport failure, a non-200 status, or a 200 response whose body is
malformed (unparsable, or missing the `text` field). -/
def failingInteraction : HttpOutcome → Bool
  | .transportError _ => true
  | .response status_code body =>
    decide (status_code ≠ 200) ||
      (match body with
       | .error _ => true
       | .ok d => d.text.isNone)

/-- Arguments of a tool call after `json.loads`, specialised to the two
argument shapes the registered tools accept as keyword arguments. -/
inductive ParsedArgs where
  | calcArgs (operation : String) (x : ℚ) (y : ℚ)
  | emptyArgs
  deriving DecidableEq, Repr

/-- A tool-invocation request emitted by the model: its correlation
identifier (`tool_call.id`), the function name, and the parsed argument
mapping. -/
structure ToolCall where
  id : String
  fname : String
  args : ParsedArgs
  deriving DecidableEq, Repr

/-- A chat message.  `tool_calls` is nonempty only on an assistant message
that requests tool invocations; `tool_call_id` and `name` are set only on
tool-result messages. -/
structure Message where
  role : String
  content : String
  tool_calls : List ToolCall := []
  tool_call_id : Option String := none
  name : Option String := none
  deriving DecidableEq, Repr

/-- The value returned by executing one of the registered tools. -/
inductive ToolResult where
  | calcRes (r : CalcResult)
  | factRes (d : List (String × String))
  deriving DecidableEq, Repr

/-- Model of Python `str` on the numbers the calculator returns. -/
def pyNumStr (q : ℚ) : String := toString q

/-- Model of `json.dumps` on the string-valued dicts the fact tool
returns. -/
def jsonDumps (d : List (String × String)) : String :=
  "\x7b" ++ String.intercalate ", "
    (d.map (fun p => "\"" ++ p.1 ++ "\": \"" ++ p.2 ++ "\"")) ++ "\x7d"

/-- Serialisation of a tool result into the `content` of its tool-result
message: `json.dumps` for a dict, `str` otherwise. -/
def serializeResult : ToolResult → String
  | .calcRes (.num q) => pyNumStr q
  | .calcRes (.str s) => s
  | .factRes d => jsonDumps d

/-- An exception the Python tool-execution loop can raise: the `KeyError`
of `available_functions[function_name]` when the requested name is not in
the registry (the spec's `UnknownTool` condition), or the `TypeError` of
calling a function with a mismatched keyword-argument mapping. -/
inductive PyError where
  | unknownTool (fname : String)
  | typeError (fname : String)
  deriving DecidableEq, Repr

/-- One executed tool invocation, recorded in request order. -/
structure ExecRecord where
  fname : String
  args : ParsedArgs
  deriving DecidableEq, Repr

/-- An uncaught exception propagating out of `run_agent`, instrumented
with the tool executions (observable side effects) that happened before it
was raised. -/
structure AgentFailure where
  err : PyError
  executedBefore : List ExecRecord
  deriving DecidableEq, Repr

/-- The type of a registered tool function: it receives the parsed
arguments, the stream of fact-service outcomes, and the index of the next
unread outcome, and returns its result plus the updated index (or raises
`TypeError` on an argument mismatch). -/
def ToolFn : Type :=
  ParsedArgs → (Nat → HttpOutcome) → Nat → Except PyError (ToolResult × Nat)

/-- The `calculate` entry of the registry: expects the keyword arguments
`operation`, `x`, `y`. -/
def calculateFn : ToolFn := fun args _ k =>
  match args with
  | .calcArgs operation x y => .ok (.calcRes (calculate operation x y), k)
  | _ => .error (.typeError "calculate")

/-- The `get_random_fact` entry of the registry: expects no arguments and
consumes the next fact-service outcome. -/
def getRandomFactFn : ToolFn := fun args env k =>
  match args with
  | .emptyArgs => .ok (.factRes (get_random_fact (env k)), k + 1)
  | _ => .error (.typeError "get_random_fact")

/-- `available_functions`: the static registry mapping tool names to the
functions implementing them. -/
def available_functions : List (String × ToolFn) :=
  [("calculate", calculateFn), ("get_random_fact", getRandomFactFn)]

/-- The body of the `for tool_call in tool_calls` loop of `run_agent`:
for each request in order, look up the name in `available_functions`
(`KeyError` when absent), call the function on the parsed arguments, and
append a tool-result message carrying the request's `tool_call.id`.
Threads the conversation, the execution trace, and the fact-outcome
index. -/
def execToolCalls (env : Nat → HttpOutcome) :
    List ToolCall → List Message → List ExecRecord → Nat →
      Except AgentFailure (List Message × List ExecRecord × Nat)
  | [], messages, executed, k => .ok (messages, executed, k)
  | tc :: rest, messages, executed, k =>
    match available_functions.lookup tc.fname with
    | none => .error ⟨.unknownTool tc.fname, executed⟩
    | some f =>
      match f tc.args env k with
      | .error e => .error ⟨e, executed⟩
      | .ok (res, k2) =>
        execToolCalls env rest
          (messages ++ [{ role := "tool", content := serializeResult res,
                          tool_call_id := some tc.id, name := some tc.fname }])
          (executed ++ [⟨tc.fname, tc.args⟩]) k2

/-- The fixed system message `run_agent` starts the conversation with. -/
def system_message : Message :=
  { role := "system",
    content := "You are a helpful assistant with access to tools. Use them when needed to answer user questions accurately." }

/-- The user message of the conversation. -/
def user_msg (user_message : String) : Message :=
  { role := "user", content := user_message }

/-- The environment `run_agent` runs against: the assistant message the
first chat-completion call returns, the text the second call returns, and
the stream of fact-service outcomes. -/
structure AgentEnv where
  firstResponse : Message
  secondContent : String
  factEnv : Nat → HttpOutcome

/-- Observable outcome of one `run_agent` invocation: the final answer it
reports, the tool executions it performed in order, the conversation sent
to the second chat-completion call (`none` when no second call is made),
and how many chat-completion calls were issued. -/
structure AgentResult where
  final_message : String
  executed : List ExecRecord
  secondCallMessages : Option (List Message)
  llmCalls : Nat
  deriving DecidableEq, Repr

/-- `run_agent(user_message)`: build the conversation, read the first
response; if it requests tool calls, append it, execute every request in
order, and issue the second call on the extended conversation; otherwise
the first response's text is the final answer and no tool runs. -/
def run_agent (user_message : String) (env : AgentEnv) :
    Except AgentFailure AgentResult :=
  let messages : List Message := [system_message, user_msg user_message]
  let response_message := env.firstResponse
  let tool_calls := response_message.tool_calls
  if tool_calls.isEmpty then
    .ok { final_message := response_message.content, executed := [],
          secondCallMessages := none, llmCalls := 1 }
  else
    match execToolCalls env.factEnv tool_calls
        (messages ++ [response_message]) [] 0 with
    | .error e => .error e
    | .ok (messages2, executed, _) =>
      .ok { final_message := env.secondContent, executed := executed,
            secondCallMessages := some messages2, llmCalls := 2 }

/-- A tool call the registry can execute without raising: the name is
registered and the arguments fit the function's keyword signature. -/
def wellFormedCall (tc : ToolCall) : Bool :=
  (tc.fname == "calculate" &&
    (match tc.args with | .calcArgs _ _ _ => true | _ => false)) ||
  (tc.fname == "get_random_fact" &&
    (match tc.args with | .emptyArgs => true | _ => false))

/-- The tool-result messages the loop appends for a list of requests,
starting at fact-outcome index `k` (empty from the first non-executable
request on). -/
def toolMessagesOf (env : Nat → HttpOutcome) :
    List ToolCall → Nat → List Message
  | [], _ => []
  | tc :: rest, k =>
    match available_functions.lookup tc.fname with
    | none => []
    | some f =>
      match f tc.args env k with
      | .error _ => []
      | .ok (res, k2) =>
        { role := "tool", content := serializeResult res,
          tool_call_id := some tc.id, name := some tc.fname }
          :: toolMessagesOf env rest k2

/-- Concrete environment: a first response requesting two tool calls,
`calculate(add, 50, 25)` then `get_random_fact()`. -/
def envTwoTools : AgentEnv where
  firstResponse :=
    { role := "assistant", content := "",
      tool_calls := [⟨"call_1", "calculate", .calcArgs "add" 50 25⟩,
                     ⟨"call_2", "get_random_fact", .emptyArgs⟩] }
  secondContent := "50 plus 25 is 75, and here is a fact."
  factEnv := fun _ => .response 200 (.ok ⟨some "Bananas are berries.", some "djtech.net"⟩)

/-- Concrete environment: a first response with no tool calls. -/
def envNoTools : AgentEnv where
  firstResponse := { role := "assistant", content := "A dog has four legs." }
  secondContent := ""
  factEnv := fun _ => .transportError "unused"

/-- Concrete environment: a first response requesting a tool that is not
in the registry. -/
def envUnknownTool : AgentEnv where
  firstResponse :=
    { role := "assistant", content := "",
      tool_calls := [⟨"call_9", "web_search", .emptyArgs⟩] }
  secondContent := ""
  factEnv := fun _ => .transportError "unused"

/-- A well-formed tool call has a registered function that executes
without raising, returning some result and updated fact index. -/
theorem exec_step (env : Nat → HttpOutcome) (tc : ToolCall) (k : Nat)
    (h : wellFormedCall tc = true) :
    ∃ f res k2, available_functions.lookup tc.fname = some f ∧
      f tc.args env k = .ok (res, k2) := by
  simp only [wellFormedCall, Bool.or_eq_true, Bool.and_eq_true, beq_iff_eq] at h
  rcases h with ⟨hn, ha⟩ | ⟨hn, ha⟩
  · cases hargs : tc.args with
    | calcArgs op x y =>
      refine ⟨calculateFn, .calcRes (calculate op x y), k, ?_, ?_⟩
      · rw [hn]; rfl
      · rfl
    | emptyArgs => rw [hargs] at ha; simp at ha
  · cases hargs : tc.args with
    | calcArgs op x y => rw [hargs] at ha; simp at ha
    | emptyArgs =>
      refine ⟨getRandomFactFn, .factRes (get_random_fact (env k)), k + 1, ?_, ?_⟩
      · rw [hn]; rfl
      · rfl

/-- On a list of well-formed tool calls the execution loop succeeds,
appending exactly the tool-result messages of `toolMessagesOf` and
recording each call once, in order. -/
theorem execToolCalls_ok (env : Nat → HttpOutcome) (tcs : List ToolCall) :
    ∀ (msgs : List Message) (ex : List ExecRecord) (k : Nat),
      (∀ tc ∈ tcs, wellFormedCall tc = true) →
      ∃ k2, execToolCalls env tcs msgs ex k =
        .ok (msgs ++ toolMessagesOf env tcs k,
             ex ++ tcs.map (fun tc => ⟨tc.fname, tc.args⟩), k2) := by
  induction tcs with
  | nil => intro msgs ex k _; exact ⟨k, by simp [execToolCalls, toolMessagesOf]⟩
  | cons tc rest ih =>
    intro msgs ex k hwf
    obtain ⟨f, res, k2, hl, hf⟩ := exec_step env tc k (hwf tc (by simp))
    obtain ⟨k3, hrec⟩ := ih
      (msgs ++ [{ role := "tool", content := serializeResult res,
                  tool_call_id := some tc.id, name := some tc.fname }])
      (ex ++ [⟨tc.fname, tc.args⟩]) k2
      (fun c hc => hwf c (List.mem_cons_of_mem _ hc))
    refine ⟨k3, ?_⟩
    simp only [execToolCalls, hl, hf]
    rw [hrec]
    simp [toolMessagesOf, hl, hf]

/-- The tool-result messages of a well-formed request list carry exactly
the requests' correlation identifiers, in order. -/
theorem toolMessagesOf_ids (env : Nat → HttpOutcome) (tcs : List ToolCall) :
    ∀ k, (∀ tc ∈ tcs, wellFormedCall tc = true) →
      (toolMessagesOf env tcs k).map Message.tool_call_id =
        tcs.map (fun tc => some tc.id) := by
  induction tcs with
  | nil => intro k _; simp [toolMessagesOf]
  | cons tc rest ih =>
    intro k hwf
    obtain ⟨f, res, k2, hl, hf⟩ := exec_step env tc k (hwf tc (by simp))
    simp [toolMessagesOf, hl, hf, ih k2 (fun c hc => hwf c (List.mem_cons_of_mem _ hc))]

/-- Every message the loop appends is a tool-role message. -/
theorem toolMessagesOf_roles (env : Nat → HttpOutcome) (tcs : List ToolCall) :
    ∀ k, ∀ m ∈ toolMessagesOf env tcs k, m.role = "tool" := by
  induction tcs with
  | nil => intro k m hm; simp [toolMessagesOf] at hm
  | cons tc rest ih =>
    intro k m hm
    unfold toolMessagesOf at hm
    split at hm
    · simp at hm
    · split at hm
      · simp at hm
      · rcases List.mem_cons.mp hm with h | h
        · rw [h]
        · exact ih _ m h

/-- Executing a list of calls whose first non-executable entry has an
unregistered name raises the `KeyError` (`UnknownTool`) there, after
exactly the earlier calls have executed. -/
theorem execToolCalls_unknown (env : Nat → HttpOutcome) (pre : List ToolCall)
    (tc : ToolCall) (rest : List ToolCall) :
    ∀ (msgs : List Message) (ex : List ExecRecord) (k : Nat),
      (∀ c ∈ pre, wellFormedCall c = true) →
      available_functions.lookup tc.fname = none →
      execToolCalls env (pre ++ tc :: rest) msgs ex k =
        .error ⟨.unknownTool tc.fname,
                ex ++ pre.map (fun c => ⟨c.fname, c.args⟩)⟩ := by
  induction pre with
  | nil => intro msgs ex k _ habs; simp [execToolCalls, habs]
  | cons c pre ih =>
    intro msgs ex k hwf habs
    obtain ⟨f, res, k2, hl, hf⟩ := exec_step env c k (hwf c (by simp))
    simp only [List.cons_append, execToolCalls, hl, hf, List.append_eq]
    rw [ih _ _ _ (fun d hd => hwf d (List.mem_cons_of_mem _ hd)) habs]
    simp

/-- C2: for every pair of numbers and each of the operations `add`,
`subtract` and `multiply`, `calculate` returns the exact arithmetic
result; in particular `calculate("add", 50, 25) = 75`. -/
theorem calculate_exact_add_sub_mul (x y : ℚ) :
    calculate "add" x y = .num (x + y) ∧
    calculate "subtract" x y = .num (x - y) ∧
    calculate "multiply" x y = .num (x * y) ∧
    calculate "add" 50 25 = .num 75 :=
  ⟨rfl, rfl, rfl, by norm_num [calculate, operations]⟩

/-- C3: for every number `x`, dividing by zero returns the textual error
value `"Error: Division by zero"` (the total Lean function models that no
exception is raised). -/
theorem calculate_divide_by_zero (x : ℚ) :
    calculate "divide" x 0 = .str "Error: Division by zero" := rfl

/-- C4: for every operation outside the four recognised ones, `calculate`
returns an error string, and that string names the unrecognised operation
(it contains `op` between a prefix and a suffix). -/
theorem calculate_unknown_operation (op : String) (x y : ℚ)
    (h : op ∉ (["add", "subtract", "multiply", "divide"] : List String)) :
    calculate op x y = .str ("Error: Unknown operation \x27" ++ (op ++ "\x27")) ∧
    ∃ a b, ("Error: Unknown operation \x27" ++ (op ++ "\x27")) = a ++ (op ++ b) := by
  simp only [List.mem_cons, List.not_mem_nil, or_false, not_or] at h
  obtain ⟨h1, h2, h3, h4⟩ := h
  have b1 : (op == "add") = false := beq_eq_false_iff_ne.mpr h1
  have b2 : (op == "subtract") = false := beq_eq_false_iff_ne.mpr h2
  have b3 : (op == "multiply") = false := beq_eq_false_iff_ne.mpr h3
  have b4 : (op == "divide") = false := beq_eq_false_iff_ne.mpr h4
  refine ⟨?_, "Error: Unknown operation \x27", "\x27", rfl⟩
  simp [calculate, operations, List.lookup, b1, b2, b3, b4]

/-- Witness for C4 at the spec's own example `calculate("unknown_op", 1, 2)`. -/
theorem calculate_unknown_operation_witness :
    "unknown_op" ∉ (["add", "subtract", "multiply", "divide"] : List String) ∧
    (calculate "unknown_op" 1 2 =
        .str ("Error: Unknown operation \x27" ++ ("unknown_op" ++ "\x27")) ∧
      ∃ a b, ("Error: Unknown operation \x27" ++ ("unknown_op" ++ "\x27")) =
        a ++ ("unknown_op" ++ b)) :=
  ⟨by decide, calculate_unknown_operation "unknown_op" 1 2 (by decide)⟩

/-- C9: for every pair of numbers with a nonzero divisor, division
returns the exact quotient. -/
theorem calculate_divide_nonzero (x y : ℚ) (h : y ≠ 0) :
    calculate "divide" x y = .num (x / y) := by
  simp [calculate, operations, List.lookup, h]

/-- Witness for C9 at `calculate("divide", 1, 2)`. -/
theorem calculate_divide_nonzero_witness :
    (2 : ℚ) ≠ 0 ∧ calculate "divide" 1 2 = .num (1 / 2) :=
  ⟨by decide, calculate_divide_nonzero 1 2 (by decide)⟩

/-- C6: a 200 fact-service response whose body has both `text` and
`source` is transformed into the dict `{fact, source}` with `fact` equal
to the body's `text` and `source` equal to the body's `source`. -/
theorem get_random_fact_success (t s : String) :
    get_random_fact (.response 200 (.ok ⟨some t, some s⟩)) =
      [("fact", t), ("source", s)] := rfl

/-- C10: a 200 fact-service response whose body has `text` but no
`source` yields `source = "Unknown"`. -/
theorem get_random_fact_missing_source (t : String) :
    get_random_fact (.response 200 (.ok ⟨some t, none⟩)) =
      [("fact", t), ("source", "Unknown")] := rfl

/-- C7: every failing fact-service interaction (transport failure,
non-200 status, or malformed 200 body) yields a dict with an `error` key
and no `fact` key; totality of the Lean function models that nothing is
raised. -/
theorem get_random_fact_failing (h : HttpOutcome)
    (hf : failingInteraction h = true) :
    ((get_random_fact h).lookup "error").isSome = true ∧
    (get_random_fact h).lookup "fact" = none := by
  cases h with
  | transportError m => simp [get_random_fact, List.lookup]
  | response status body =>
    by_cases hs : status = 200
    · subst hs
      cases body with
      | error m => simp [get_random_fact, List.lookup]
      | ok d =>
        simp [failingInteraction] at hf
        cases hd : d.text with
        | none => simp [get_random_fact, List.lookup, hd]
        | some t => rw [hd] at hf; simp at hf
    · simp [get_random_fact, hs, List.lookup]

/-- Witness for C7 at a 500 response with a well-formed body. -/
theorem get_random_fact_failing_witness :
    failingInteraction (.response 500 (.ok ⟨some "x", some "y"⟩)) = true ∧
    (((get_random_fact (.response 500 (.ok ⟨some "x", some "y"⟩))).lookup
        "error").isSome = true ∧
      (get_random_fact (.response 500 (.ok ⟨some "x", some "y"⟩))).lookup
        "fact" = none) :=
  ⟨by decide, get_random_fact_failing (.response 500 (.ok ⟨some "x", some "y"⟩)) (by decide)⟩

/-- C1: when the model's first response requests tool calls, `run_agent`
executes each requested tool exactly once, sequentially and in request
order (the `executed` trace is exactly the request list), and the
conversation sent to the second chat-completion call extends the original
one with exactly one tool-role message per request, carrying that
request's `tool_call_id`, all before the second call (`llmCalls = 2`). -/
theorem run_agent_executes_each_tool_once_in_order
    (u : String) (env : AgentEnv)
    (hne : env.firstResponse.tool_calls ≠ [])
    (hwf : ∀ tc ∈ env.firstResponse.tool_calls, wellFormedCall tc = true) :
    ∃ r : AgentResult,
      run_agent u env = .ok r ∧
      r.executed = env.firstResponse.tool_calls.map (fun tc => ⟨tc.fname, tc.args⟩) ∧
      r.secondCallMessages =
        some ([system_message, user_msg u, env.firstResponse] ++
          toolMessagesOf env.factEnv env.firstResponse.tool_calls 0) ∧
      (toolMessagesOf env.factEnv env.firstResponse.tool_calls 0).map
          Message.tool_call_id =
        env.firstResponse.tool_calls.map (fun tc => some tc.id) ∧
      (∀ m ∈ toolMessagesOf env.factEnv env.firstResponse.tool_calls 0,
          m.role = "tool") ∧
      r.llmCalls = 2 := by
  obtain ⟨k2, hexec⟩ := execToolCalls_ok env.factEnv env.firstResponse.tool_calls
    ([system_message, user_msg u] ++ [env.firstResponse]) [] 0 hwf
  have hempty : env.firstResponse.tool_calls.isEmpty = false := by
    cases h : env.firstResponse.tool_calls with
    | nil => exact absurd h hne
    | cons a l => rfl
  refine ⟨{ final_message := env.secondContent,
            executed := env.firstResponse.tool_calls.map (fun tc => ⟨tc.fname, tc.args⟩),
            secondCallMessages := some ([system_message, user_msg u, env.firstResponse] ++
              toolMessagesOf env.factEnv env.firstResponse.tool_calls 0),
            llmCalls := 2 }, ?_, rfl, rfl,
    toolMessagesOf_ids env.factEnv _ 0 hwf, toolMessagesOf_roles env.factEnv _ 0, rfl⟩
  simp only [run_agent, hempty, Bool.false_eq_true, if_false]
  rw [hexec]
  simp

/-- Witness for C1: the multi-tool scenario of the spec, a first response
requesting `calculate(add, 50, 25)` then `get_random_fact()`. -/
theorem run_agent_executes_each_tool_once_in_order_witness :
    (envTwoTools.firstResponse.tool_calls ≠ [] ∧
      ∀ tc ∈ envTwoTools.firstResponse.tool_calls, wellFormedCall tc = true) ∧
    (∃ r : AgentResult,
      run_agent "Calculate 50 plus 25, and also tell me a random fact"
        envTwoTools = .ok r ∧
      r.executed =
        envTwoTools.firstResponse.tool_calls.map (fun tc => ⟨tc.fname, tc.args⟩) ∧
      r.secondCallMessages =
        some ([system_message,
               user_msg "Calculate 50 plus 25, and also tell me a random fact",
               envTwoTools.firstResponse] ++
          toolMessagesOf envTwoTools.factEnv envTwoTools.firstResponse.tool_calls 0) ∧
      (toolMessagesOf envTwoTools.factEnv envTwoTools.firstResponse.tool_calls 0).map
          Message.tool_call_id =
        envTwoTools.firstResponse.tool_calls.map (fun tc => some tc.id) ∧
      (∀ m ∈ toolMessagesOf envTwoTools.factEnv envTwoTools.firstResponse.tool_calls 0,
          m.role = "tool") ∧
      r.llmCalls = 2) :=
  ⟨⟨by decide, by decide⟩,
    run_agent_executes_each_tool_once_in_order
      "Calculate 50 plus 25, and also tell me a random fact" envTwoTools
      (by decide) (by decide)⟩

/-- C5: when the model's first response requests no tool calls,
`run_agent` reports that response's text verbatim as the final answer,
executes no tool, and issues no second chat-completion call. -/
theorem run_agent_no_tools (u : String) (env : AgentEnv)
    (h : env.firstResponse.tool_calls = []) :
    run_agent u env =
      .ok { final_message := env.firstResponse.content, executed := [],
            secondCallMessages := none, llmCalls := 1 } := by
  simp [run_agent, h]

/-- Witness for C5: a first response with no tool calls. -/
theorem run_agent_no_tools_witness :
    envNoTools.firstResponse.tool_calls = [] ∧
    run_agent "Tell me some animal that has 4 legs." envNoTools =
      .ok { final_message := envNoTools.firstResponse.content, executed := [],
            secondCallMessages := none, llmCalls := 1 } :=
  ⟨rfl, run_agent_no_tools "Tell me some animal that has 4 legs." envNoTools rfl⟩

/-- C8: when a requested tool name is absent from the registry, the loop
raises the `KeyError` (`UnknownTool`) for that request — `run_agent`
propagates it instead of returning a result — and the function of that
request is never executed (the execution trace at the exception holds
only the earlier, registered requests, none bearing the unknown name). -/
theorem run_agent_unknown_tool_fails (u : String) (env : AgentEnv)
    (pre : List ToolCall) (tc : ToolCall) (rest : List ToolCall)
    (hsplit : env.firstResponse.tool_calls = pre ++ tc :: rest)
    (hpre : ∀ c ∈ pre, wellFormedCall c = true)
    (habs : available_functions.lookup tc.fname = none) :
    run_agent u env =
      .error ⟨.unknownTool tc.fname, pre.map (fun c => ⟨c.fname, c.args⟩)⟩ ∧
    ∀ r ∈ pre.map (fun c : ToolCall => (⟨c.fname, c.args⟩ : ExecRecord)),
      r.fname ≠ tc.fname := by
  have hempty : env.firstResponse.tool_calls.isEmpty = false := by
    rw [hsplit]; cases pre <;> rfl
  have hexec := execToolCalls_unknown env.factEnv pre tc rest
    ([system_message, user_msg u] ++ [env.firstResponse]) [] 0 hpre habs
  constructor
  · simp only [run_agent, hempty, Bool.false_eq_true, if_false]
    rw [hsplit, hexec]
    simp
  · intro r hr
    rcases List.mem_map.mp hr with ⟨c, hc, hrc⟩
    obtain ⟨f, res, k2, hl, _⟩ := exec_step env.factEnv c 0 (hpre c hc)
    intro heq
    rw [← hrc] at heq
    have heq2 : c.fname = tc.fname := heq
    rw [heq2] at hl
    rw [hl] at habs
    exact Option.noConfusion habs

/-- Witness for C8: a first response requesting the unregistered tool
`web_search`. -/
theorem run_agent_unknown_tool_fails_witness :
    (envUnknownTool.firstResponse.tool_calls =
        [] ++ (⟨"call_9", "web_search", .emptyArgs⟩ : ToolCall) :: [] ∧
      (∀ c ∈ ([] : List ToolCall), wellFormedCall c = true) ∧
      available_functions.lookup
        (ToolCall.mk "call_9" "web_search" .emptyArgs).fname = none) ∧
    (run_agent "Search the web" envUnknownTool =
        .error ⟨.unknownTool (ToolCall.mk "call_9" "web_search" .emptyArgs).fname,
                ([] : List ToolCall).map (fun c => ⟨c.fname, c.args⟩)⟩ ∧
      ∀ r ∈ ([] : List ToolCall).map
          (fun c : ToolCall => (⟨c.fname, c.args⟩ : ExecRecord)),
        r.fname ≠ (ToolCall.mk "call_9" "web_search" .emptyArgs).fname) :=
  ⟨⟨rfl, by simp, rfl⟩,
    run_agent_unknown_tool_fails "Search the web" envUnknownTool []
      (ToolCall.mk "call_9" "web_search" .emptyArgs) [] rfl (by simp) rfl⟩

end Hw
